import Mathlib

/-!
Shallow embedding of the MessageBird Go REST client (`client.go`).

The single dispatcher `Client.Request` builds an authenticated HTTP request,
hands it to the HTTP transport, and classifies the response.  External
collaborators (Go's `net/url` parsing, `encoding/json` marshalling and
unmarshalling, `http.NewRequest` validation and the HTTP transport itself)
are passed in as function parameters, so that the control flow of
`client.go` itself is modelled exactly.
-/

namespace Messagebird

/-- Version string used in the User-Agent request header (client.go line 28). -/
def ClientVersion : String := "4.2.1"

/-- Base URL of the MessageBird REST API (client.go line 31). -/
def Endpoint : String := "https://rest.messagebird.com"

/-- Translation of Go strings.HasPrefix: the second string starts the first. -/
def hasPre (s p : String) : Bool := p.data.isPrefixOf s.data

/-- Modelled from the spec: one item of the wire error payload
`{ "errors": [ { "code": <int>, "description": <string>, "parameter": <string, optional>,
"documentation": <string, optional> } ] }`; the Go `Error` struct lives outside `src/`. -/
structure ErrorItem where
  code : Int
  description : String
  parameter : Option String
  documentation : Option String
deriving DecidableEq, Repr

/-- Modelled from the spec: the wire error envelope consumed on non-200/201/500
statuses; the Go `ErrorResponse` struct lives outside `src/`. -/
structure ErrorResponse where
  errors : List ErrorItem
deriving DecidableEq, Repr

/-- The distinct kinds of error values `Request` can return, one constructor per
`return err` site of client.go. -/
inductive ReqError where
  /-- Failure of `url.Parse` (line 67). -/
  | urlParse (msg : String)
  /-- Failure of `json.Marshal` (line 74). -/
  | marshal (msg : String)
  /-- Failure of `http.NewRequest` (line 80). -/
  | newRequest (msg : String)
  /-- Failure of `HTTPClient.Do` (line 98). -/
  | transport (msg : String)
  /-- Failure of `ioutil.ReadAll` (line 105). -/
  | readBody (msg : String)
  /-- The `ErrUnexpectedResponse` sentinel returned on status 500 (line 115). -/
  | serviceUnavailable
  /-- The `fmt.Errorf` wrapper around a failed 200/201 body decode (line 121);
  carries the formatted message. -/
  | decodeError (msg : String)
  /-- A structured API error: `return errorResponse` (line 132). -/
  | structured (resp : ErrorResponse)
  /-- The raw `json.Unmarshal` failure returned unwrapped on the error-envelope
  path (line 129). -/
  | rawParse (msg : String)
deriving DecidableEq, Repr

/-- Sentinel `ErrUnexpectedResponse` (client.go line 39): returned whenever the
server answers with status 500. -/
def ErrUnexpectedResponse : ReqError := ReqError.serviceUnavailable

/-- The outbound HTTP request handed to the transport. -/
structure OutboundRequest where
  method : String
  url : String
  body : Option String
  headers : List (String × String)
deriving DecidableEq, Repr

/-- Outcome of `HTTPClient.Do` followed by `ioutil.ReadAll` (client.go lines 96-106). -/
inductive TransportOutcome where
  /-- Error returned by `HTTPClient.Do`. -/
  | doFail (msg : String)
  /-- The response body could not be fully read. -/
  | readFail (msg : String)
  /-- A response with the given status code and fully read body. -/
  | ok (status : Nat) (body : String)
deriving DecidableEq, Repr

/-- The `Client` struct (client.go lines 44-48); the `*http.Client` transport is a
`Request` parameter and the optional `*log.Logger` is modelled by its presence. -/
structure Client where
  AccessKey : String
  DebugLog : Bool
deriving DecidableEq, Repr

/-- Result of one `Request` call: the caller's sink after the call, the returned
error, the request handed to the transport (if the call got that far) and the
debug log lines emitted. -/
structure RequestResult (α : Type) where
  sink : α
  error : Option ReqError
  sent : Option OutboundRequest
  logLines : List String
deriving DecidableEq, Repr

/-- URL resolution (client.go lines 62-64): a path not starting with the literal
strings "https://" or "http://" gets the endpoint and "/" prepended. -/
def resolvePath (path : String) : String :=
  if ¬ hasPre path "https://" ∧ ¬ hasPre path "http://" then
    Endpoint ++ "/" ++ path
  else
    path

/-- Payload encoding (client.go lines 70-76): `nil` data is not marshalled;
otherwise `json.Marshal` runs and its failure aborts the call. -/
def encodeData {β : Type} (marshal : β → Except String String) (data : Option β) :
    Except ReqError (Option String) :=
  match data with
  | none => Except.ok none
  | some d =>
    match marshal d with
    | Except.error e => Except.error (ReqError.marshal e)
    | Except.ok s => Except.ok (some s)

/-- The four headers set on every request (client.go lines 83-86). -/
def requestHeaders (accessKey goVersion : String) : List (String × String) :=
  [("Content-Type", "application/json"),
   ("Accept", "application/json"),
   ("Authorization", "AccessKey " ++ accessKey),
   ("User-Agent", "MessageBird/ApiClient/" ++ ClientVersion ++ " Go/" ++ goVersion)]

/-- Debug line for the outgoing request (client.go lines 88-94), emitted only
when a debug logger is configured. -/
def debugRequestLines (c : Client) (method uriStr : String) (jsonEncoded : Option String) :
    List String :=
  if c.DebugLog then
    match jsonEncoded with
    | some b => ["HTTP REQUEST: " ++ method ++ " " ++ uriStr ++ " " ++ b]
    | none => ["HTTP REQUEST: " ++ method ++ " " ++ uriStr]
  else []

/-- Debug line for the raw response body (client.go lines 108-110). -/
def debugResponseLines (c : Client) (body : String) : List String :=
  if c.DebugLog then ["HTTP RESPONSE: " ++ body] else []

/-- Response classification (client.go lines 112-132): 500 is the fixed
sentinel, 200/201 unmarshal into the caller's sink, anything else must be a
JSON error envelope.  `decode body v` models `json.Unmarshal(body, &v)` the
way Go's encoding/json behaves: it returns the sink's new contents together
with an optional error, and on failure the new contents may be a partial write
(encoding/json syntax-checks the whole input first, but on semantically
mismatched JSON it populates what it can before returning the type error).
The result is the sink's contents after classification plus the returned
error; only the 200/201 branch ever writes to the sink, since the envelope
branch unmarshals into a fresh `errorResponse` variable. -/
def classify {α : Type} (decode : String → α → α × Option String)
    (decodeErrResp : String → Except String ErrorResponse)
    (v : α) (status : Nat) (body : String) : α × Option ReqError :=
  if status = 500 then
    (v, some ErrUnexpectedResponse)
  else if status = 200 ∨ status = 201 then
    match decode body v with
    | (v2, some e) =>
      (v2, some (ReqError.decodeError ("could not decode response JSON, " ++ body ++ ": " ++ e)))
    | (v2, none) => (v2, none)
  else
    match decodeErrResp body with
    | Except.error e => (v, some (ReqError.rawParse e))
    | Except.ok er => (v, some (ReqError.structured er))

/-- Translation of `Client.Request` (client.go lines 61-133).  `parseURL` models
`url.Parse` followed by `uri.String()`; `marshal` models `json.Marshal`;
`newReqErr` models the error case of `http.NewRequest`; `transport` models
`HTTPClient.Do` plus reading the body; `decode` models
`json.Unmarshal(responseBody, &v)` into the caller's sink, returning the
sink's new contents (a partial write is possible on failure, as with Go's
encoding/json on type-mismatched JSON) together with the error;
`decodeErrResp` models `json.Unmarshal` into a fresh `ErrorResponse`;
`goVersion` is `runtime.Version()`.  `v` is the caller's result sink before
the call. -/
def Request {α β : Type} (parseURL : String → Except String String)
    (marshal : β → Except String String)
    (newReqErr : String → String → Option String)
    (transport : OutboundRequest → TransportOutcome)
    (decode : String → α → α × Option String)
    (decodeErrResp : String → Except String ErrorResponse)
    (goVersion : String) (c : Client) (v : α)
    (method path : String) (data : Option β) : RequestResult α :=
  match parseURL (resolvePath path) with
  | Except.error e => ⟨v, some (ReqError.urlParse e), none, []⟩
  | Except.ok uriStr =>
    match encodeData marshal data with
    | Except.error er => ⟨v, some er, none, []⟩
    | Except.ok jsonEncoded =>
      match newReqErr method uriStr with
      | some e => ⟨v, some (ReqError.newRequest e), none, []⟩
      | none =>
        let req : OutboundRequest :=
          ⟨method, uriStr, jsonEncoded, requestHeaders c.AccessKey goVersion⟩
        let reqLog := debugRequestLines c method uriStr jsonEncoded
        match transport req with
        | TransportOutcome.doFail e => ⟨v, some (ReqError.transport e), some req, reqLog⟩
        | TransportOutcome.readFail e => ⟨v, some (ReqError.readBody e), some req, reqLog⟩
        | TransportOutcome.ok status body =>
          let respLog := debugResponseLines c body
          let outcome := classify decode decodeErrResp v status body
          ⟨outcome.1, outcome.2, some req, reqLog ++ respLog⟩

/-! ### Helper lemmas about `classify` and `Request` -/

theorem classify_500 {α : Type} (decode : String → α → α × Option String)
    (decodeErrResp : String → Except String ErrorResponse) (v : α) (body : String) :
    classify decode decodeErrResp v 500 body = (v, some ErrUnexpectedResponse) := by
  simp [classify]

theorem classify_success {α : Type} (decode : String → α → α × Option String)
    (decodeErrResp : String → Except String ErrorResponse) (v : α) (status : Nat)
    (body : String) (a : α) (hs : status = 200 ∨ status = 201)
    (hd : decode body v = (a, none)) :
    classify decode decodeErrResp v status body = (a, none) := by
  rcases hs with hs | hs <;> subst hs <;> simp [classify, hd]

theorem classify_success_badBody {α : Type} (decode : String → α → α × Option String)
    (decodeErrResp : String → Except String ErrorResponse) (v v2 : α) (status : Nat)
    (body e : String) (hs : status = 200 ∨ status = 201)
    (hd : decode body v = (v2, some e)) :
    classify decode decodeErrResp v status body =
      (v2, some (ReqError.decodeError
        ("could not decode response JSON, " ++ body ++ ": " ++ e))) := by
  rcases hs with hs | hs <;> subst hs <;> simp [classify, hd]

theorem classify_other_ok {α : Type} (decode : String → α → α × Option String)
    (decodeErrResp : String → Except String ErrorResponse) (v : α) (status : Nat)
    (body : String) (er : ErrorResponse)
    (h200 : status ≠ 200) (h201 : status ≠ 201) (h500 : status ≠ 500)
    (hd : decodeErrResp body = Except.ok er) :
    classify decode decodeErrResp v status body = (v, some (ReqError.structured er)) := by
  simp [classify, h200, h201, h500, hd]

theorem classify_other_badBody {α : Type} (decode : String → α → α × Option String)
    (decodeErrResp : String → Except String ErrorResponse) (v : α) (status : Nat)
    (body e : String) (h200 : status ≠ 200) (h201 : status ≠ 201) (h500 : status ≠ 500)
    (hd : decodeErrResp body = Except.error e) :
    classify decode decodeErrResp v status body = (v, some (ReqError.rawParse e)) := by
  simp [classify, h200, h201, h500, hd]

/-- On any classification that errors with something other than a
`decodeError`, the sink keeps its prior contents: only the 200/201 unmarshal
branch can write to it, and that branch tags its failures `decodeError`. -/
theorem classify_sink_of_error {α : Type} (decode : String → α → α × Option String)
    (decodeErrResp : String → Except String ErrorResponse) (v : α) (status : Nat)
    (body : String) (er : ReqError)
    (h : (classify decode decodeErrResp v status body).2 = some er)
    (hnot : ∀ msg : String, er ≠ ReqError.decodeError msg) :
    (classify decode decodeErrResp v status body).1 = v := by
  unfold classify at h ⊢
  split_ifs at h ⊢ with h500 hsucc
  · rfl
  · rcases hd : decode body v with ⟨v2, _ | e⟩ <;> rw [hd] at h
    · exact Option.noConfusion h
    · exact absurd (Option.some.inj h).symm (hnot _)
  · cases hd : decodeErrResp body <;> simp [hd]

/-- When URL parsing, payload encoding and request construction all succeed and
the transport delivers a response, the whole call reduces to `classify`. -/
theorem Request_transport_ok {α β : Type} (parseURL : String → Except String String)
    (marshal : β → Except String String) (newReqErr : String → String → Option String)
    (decode : String → α → α × Option String)
    (decodeErrResp : String → Except String ErrorResponse)
    (goVersion : String) (c : Client) (v : α) (method path : String) (data : Option β)
    (uriStr : String) (jsonEncoded : Option String) (status : Nat) (body : String)
    (hparse : parseURL (resolvePath path) = Except.ok uriStr)
    (henc : encodeData marshal data = Except.ok jsonEncoded)
    (hreq : newReqErr method uriStr = none) :
    Request parseURL marshal newReqErr (fun _ => TransportOutcome.ok status body)
        decode decodeErrResp goVersion c v method path data =
      { sink := (classify decode decodeErrResp v status body).1
        error := (classify decode decodeErrResp v status body).2
        sent := some ⟨method, uriStr, jsonEncoded, requestHeaders c.AccessKey goVersion⟩
        logLines := debugRequestLines c method uriStr jsonEncoded ++
          debugResponseLines c body } := by
  unfold Request
  simp only [hparse, henc, hreq]

/-- Whenever the pre-transport phases succeed, the request handed to the
transport has the resolved URL and the standard headers, whatever the
transport then does. -/
theorem Request_sent_eq {α β : Type} (parseURL : String → Except String String)
    (marshal : β → Except String String) (newReqErr : String → String → Option String)
    (transport : OutboundRequest → TransportOutcome)
    (decode : String → α → α × Option String)
    (decodeErrResp : String → Except String ErrorResponse)
    (goVersion : String) (c : Client) (v : α) (method path : String) (data : Option β)
    (uriStr : String) (jsonEncoded : Option String)
    (hparse : parseURL (resolvePath path) = Except.ok uriStr)
    (henc : encodeData marshal data = Except.ok jsonEncoded)
    (hreq : newReqErr method uriStr = none) :
    (Request parseURL marshal newReqErr transport decode decodeErrResp goVersion
        c v method path data).sent =
      some ⟨method, uriStr, jsonEncoded, requestHeaders c.AccessKey goVersion⟩ := by
  unfold Request
  simp only [hparse, henc, hreq]
  rcases htr : transport ⟨method, uriStr, jsonEncoded, requestHeaders c.AccessKey goVersion⟩
    with e | e | ⟨status, body⟩ <;> simp only [htr]

/-! ### Concrete collaborators used to witness the theorems -/

/-- A concrete result codec for witnesses: a Boolean rendered as a JSON literal. -/
def encodeBool (b : Bool) : String := if b then "true" else "false"

/-- Decoder matching `encodeBool`, in the Go unmarshal shape: it writes the
decoded value into the sink on success and leaves the sink untouched on a
parse failure (a Boolean target has no partial writes). -/
def decodeBool (s : String) (v : Bool) : Bool × Option String :=
  if s = "true" then (true, none)
  else if s = "false" then (false, none)
  else (v, some "invalid Boolean literal")

/-! ### A small JSON parser

Stand-in for `encoding/json.Unmarshal` into `ErrorResponse`, used to give the
`decodeErrResp` parameter a concrete, honestly computing value in witnesses.
-/

/-- JSON values (objects keep field order). -/
inductive JsonVal where
  | null
  | bool (b : Bool)
  | num (n : Int)
  | str (s : String)
  | arr (elems : List JsonVal)
  | obj (fields : List (String × JsonVal))
deriving Repr

/-- The character `{`. -/
def lbrace : Char := Char.ofNat 123

/-- The character `}`. -/
def rbrace : Char := Char.ofNat 125

/-- Drop leading JSON whitespace. -/
def skipWs : List Char → List Char
  | [] => []
  | c :: rest => if c = ' ' ∨ c = '\n' ∨ c = '\t' ∨ c = '\r' then skipWs rest else c :: rest

/-- Translate the character after a backslash escape. -/
def escChar (e : Char) : Char :=
  if e = 'n' then '\n' else if e = 't' then '\t' else if e = 'r' then '\r' else e

/-- Parse the remainder of a JSON string, the opening quote already consumed. -/
def parseStr : List Char → Except String (String × List Char)
  | [] => Except.error "unexpected end of JSON input"
  | c :: rest =>
    if c = '\"' then Except.ok ("", rest)
    else if c = '\\' then
      match rest with
      | [] => Except.error "unexpected end of JSON input"
      | e :: rest2 =>
        match parseStr rest2 with
        | Except.error msg => Except.error msg
        | Except.ok (s, rem) => Except.ok (String.mk (escChar e :: s.data), rem)
    else
      match parseStr rest with
      | Except.error msg => Except.error msg
      | Except.ok (s, rem) => Except.ok (String.mk (c :: s.data), rem)

/-- Split off a maximal run of decimal digits. -/
def takeDigits : List Char → List Char × List Char
  | [] => ([], [])
  | c :: rest =>
    if c.isDigit then
      let p := takeDigits rest
      (c :: p.1, p.2)
    else ([], c :: rest)

/-- Numeric value of a digit run. -/
def digitsToNat (ds : List Char) : Nat :=
  ds.foldl (fun acc c => acc * 10 + (c.toNat - 48)) 0

/-- Consume an expected literal character sequence. -/
def expectChars : List Char → List Char → Option (List Char)
  | [], rest => some rest
  | e :: es, c :: rest => if c = e then expectChars es rest else none
  | _ :: _, [] => none

mutual

/-- Parse one JSON value; `fuel` bounds the recursion. -/
def parseVal : Nat → List Char → Except String (JsonVal × List Char)
  | 0, _ => Except.error "JSON input too deep"
  | fuel + 1, input =>
    match skipWs input with
    | [] => Except.error "unexpected end of JSON input"
    | c :: rest =>
      if c = '\"' then
        match parseStr rest with
        | Except.error e => Except.error e
        | Except.ok (s, rem) => Except.ok (JsonVal.str s, rem)
      else if c = lbrace then
        match skipWs rest with
        | [] => Except.error "unexpected end of JSON input"
        | d :: rest2 =>
          if d = rbrace then Except.ok (JsonVal.obj [], rest2)
          else parseFields fuel (d :: rest2) []
      else if c = '[' then
        match skipWs rest with
        | [] => Except.error "unexpected end of JSON input"
        | d :: rest2 =>
          if d = ']' then Except.ok (JsonVal.arr [], rest2)
          else parseElems fuel (d :: rest2) []
      else if c = 't' then
        match expectChars ['r', 'u', 'e'] rest with
        | some rem => Except.ok (JsonVal.bool true, rem)
        | none => Except.error "invalid character in literal"
      else if c = 'f' then
        match expectChars ['a', 'l', 's', 'e'] rest with
        | some rem => Except.ok (JsonVal.bool false, rem)
        | none => Except.error "invalid character in literal"
      else if c = 'n' then
        match expectChars ['u', 'l', 'l'] rest with
        | some rem => Except.ok (JsonVal.null, rem)
        | none => Except.error "invalid character in literal"
      else if c = '-' then
        match takeDigits rest with
        | ([], _) => Except.error "invalid character in number"
        | (ds, rem) => Except.ok (JsonVal.num (-(digitsToNat ds : Int)), rem)
      else if c.isDigit then
        let p := takeDigits (c :: rest)
        Except.ok (JsonVal.num (digitsToNat p.1), p.2)
      else Except.error "invalid character looking for beginning of value"

/-- Parse the elements of a non-empty JSON array. -/
def parseElems : Nat → List Char → List JsonVal → Except String (JsonVal × List Char)
  | 0, _, _ => Except.error "JSON input too deep"
  | fuel + 1, input, acc =>
    match parseVal fuel input with
    | Except.error e => Except.error e
    | Except.ok (v, rem) =>
      match skipWs rem with
      | [] => Except.error "unexpected end of JSON input"
      | c :: rest =>
        if c = ',' then parseElems fuel rest (acc ++ [v])
        else if c = ']' then Except.ok (JsonVal.arr (acc ++ [v]), rest)
        else Except.error "invalid character after array element"

/-- Parse the fields of a non-empty JSON object. -/
def parseFields : Nat → List Char → List (String × JsonVal) →
    Except String (JsonVal × List Char)
  | 0, _, _ => Except.error "JSON input too deep"
  | fuel + 1, input, acc =>
    match skipWs input with
    | [] => Except.error "unexpected end of JSON input"
    | c :: rest =>
      if c = '\"' then
        match parseStr rest with
        | Except.error e => Except.error e
        | Except.ok (k, rem) =>
          match skipWs rem with
          | [] => Except.error "unexpected end of JSON input"
          | d :: rest2 =>
            if d = ':' then
              match parseVal fuel rest2 with
              | Except.error e => Except.error e
              | Except.ok (v, rem2) =>
                match skipWs rem2 with
                | [] => Except.error "unexpected end of JSON input"
                | d2 :: rest3 =>
                  if d2 = ',' then parseFields fuel rest3 (acc ++ [(k, v)])
                  else if d2 = rbrace then Except.ok (JsonVal.obj (acc ++ [(k, v)]), rest3)
                  else Except.error "invalid character after object field"
            else Except.error "invalid character after object key"
      else Except.error "invalid character looking for object key"

end

/-- Parse a whole JSON document. -/
def parseJsonText (s : String) : Except String JsonVal :=
  match parseVal (2 * s.length + 8) s.data with
  | Except.error e => Except.error e
  | Except.ok (j, rem) =>
    match skipWs rem with
    | [] => Except.ok j
    | _ => Except.error "invalid character after top-level value"

/-- Find a field by name in a parsed object. -/
def findField (fields : List (String × JsonVal)) (k : String) : Option JsonVal :=
  match fields with
  | [] => none
  | (k2, v) :: rest => if k2 = k then some v else findField rest k

/-- Read an integer field; a missing field is zero. -/
def intField (fields : List (String × JsonVal)) (k : String) : Except String Int :=
  match findField fields k with
  | none => Except.ok 0
  | some (JsonVal.num n) => Except.ok n
  | some _ => Except.error ("json: cannot unmarshal field " ++ k)

/-- Read a string field; a missing field is the empty string. -/
def strField (fields : List (String × JsonVal)) (k : String) : Except String String :=
  match findField fields k with
  | none => Except.ok ""
  | some (JsonVal.str s) => Except.ok s
  | some _ => Except.error ("json: cannot unmarshal field " ++ k)

/-- Read an optional string field. -/
def optStrField (fields : List (String × JsonVal)) (k : String) :
    Except String (Option String) :=
  match findField fields k with
  | none => Except.ok none
  | some (JsonVal.str s) => Except.ok (some s)
  | some _ => Except.error ("json: cannot unmarshal field " ++ k)

/-- Modelled from the spec: decode one item of the wire error payload. -/
def jsonToErrorItem : JsonVal → Except String ErrorItem
  | JsonVal.obj fields => do
    let code ← intField fields "code"
    let description ← strField fields "description"
    let parameter ← optStrField fields "parameter"
    let documentation ← optStrField fields "documentation"
    Except.ok ⟨code, description, parameter, documentation⟩
  | _ => Except.error "json: cannot unmarshal non-object into Error"

/-- Decode each element of the "errors" array. -/
def jsonToItems : List JsonVal → Except String (List ErrorItem)
  | [] => Except.ok []
  | j :: rest => do
    let item ← jsonToErrorItem j
    let items ← jsonToItems rest
    Except.ok (item :: items)

/-- Modelled from the spec: decode the wire error envelope
`{ "errors": [ ... ] }` into an `ErrorResponse`. -/
def jsonToErrorResponse : JsonVal → Except String ErrorResponse
  | JsonVal.obj fields =>
    match findField fields "errors" with
    | none => Except.ok ⟨[]⟩
    | some (JsonVal.arr elems) =>
      match jsonToItems elems with
      | Except.error e => Except.error e
      | Except.ok items => Except.ok ⟨items⟩
    | some _ => Except.error "json: cannot unmarshal field errors"
  | _ => Except.error "json: cannot unmarshal non-object into ErrorResponse"

/-- Concrete error-envelope decoder used to instantiate the `decodeErrResp`
parameter in witnesses. -/
def decodeErrorResponseJson (s : String) : Except String ErrorResponse :=
  match parseJsonText s with
  | Except.error e => Except.error e
  | Except.ok j => jsonToErrorResponse j

/-! ### Claims -/

/-- C1: for every response with status code 500, `Request` fails with the fixed
`ServiceUnavailable` sentinel (`ErrUnexpectedResponse`), identical regardless
of the response body content (the body is universally quantified and never
inspected), and the caller's sink is untouched. -/
theorem c1_status_500_always_sentinel {α β : Type}
    (parseURL : String → Except String String) (marshal : β → Except String String)
    (newReqErr : String → String → Option String)
    (decode : String → α → α × Option String)
    (decodeErrResp : String → Except String ErrorResponse)
    (goVersion : String) (c : Client) (v : α) (method path : String) (data : Option β)
    (uriStr : String) (jsonEncoded : Option String) (body : String)
    (hparse : parseURL (resolvePath path) = Except.ok uriStr)
    (henc : encodeData marshal data = Except.ok jsonEncoded)
    (hreq : newReqErr method uriStr = none) :
    (Request parseURL marshal newReqErr (fun _ => TransportOutcome.ok 500 body)
        decode decodeErrResp goVersion c v method path data).error =
      some ErrUnexpectedResponse ∧
    (Request parseURL marshal newReqErr (fun _ => TransportOutcome.ok 500 body)
        decode decodeErrResp goVersion c v method path data).sink = v := by
  rw [Request_transport_ok parseURL marshal newReqErr decode decodeErrResp goVersion c v
    method path data uriStr jsonEncoded 500 body hparse henc hreq]
  simp [classify_500]

/-- Witness for C1 at a concrete garbage body. -/
theorem c1_witness :
    (Request (fun s => Except.ok s) (fun _ : Unit => Except.ok "") (fun _ _ => none)
        (fun _ => TransportOutcome.ok 500 "Internal Server Error")
        decodeBool (fun _ => Except.error "boom") "go1.13" ⟨"test-key", false⟩ false
        "GET" "messages" none).error = some ErrUnexpectedResponse ∧
    (Request (fun s => Except.ok s) (fun _ : Unit => Except.ok "") (fun _ _ => none)
        (fun _ => TransportOutcome.ok 500 "Internal Server Error")
        decodeBool (fun _ => Except.error "boom") "go1.13" ⟨"test-key", false⟩ false
        "GET" "messages" none).sink = false :=
  c1_status_500_always_sentinel (fun s => Except.ok s) (fun _ : Unit => Except.ok "")
    (fun _ _ => none) decodeBool (fun _ => Except.error "boom") "go1.13"
    ⟨"test-key", false⟩ false "GET" "messages" none (resolvePath "messages") none
    "Internal Server Error" rfl rfl rfl

/-- C3: for every 200/201 response whose body is the encoding of a value of the
caller's expected shape (the codec round-trips on it), `Request` succeeds and
the sink holds exactly that value. -/
theorem c3_success_roundtrip {α β : Type}
    (parseURL : String → Except String String) (marshal : β → Except String String)
    (newReqErr : String → String → Option String)
    (decode : String → α → α × Option String)
    (decodeErrResp : String → Except String ErrorResponse)
    (goVersion : String) (c : Client) (v : α) (method path : String) (data : Option β)
    (uriStr : String) (jsonEncoded : Option String) (encode : α → String) (a : α) (status : Nat)
    (hparse : parseURL (resolvePath path) = Except.ok uriStr)
    (henc : encodeData marshal data = Except.ok jsonEncoded)
    (hreq : newReqErr method uriStr = none)
    (hstatus : status = 200 ∨ status = 201)
    (hround : decode (encode a) v = (a, none)) :
    (Request parseURL marshal newReqErr (fun _ => TransportOutcome.ok status (encode a))
        decode decodeErrResp goVersion c v method path data).error = none ∧
    (Request parseURL marshal newReqErr (fun _ => TransportOutcome.ok status (encode a))
        decode decodeErrResp goVersion c v method path data).sink = a := by
  rw [Request_transport_ok parseURL marshal newReqErr decode decodeErrResp goVersion c v
    method path data uriStr jsonEncoded status (encode a) hparse henc hreq]
  simp [classify_success decode decodeErrResp v status (encode a) a hstatus hround]

/-- Witness for C3: round-trip of the value `true` through a 200 response. -/
theorem c3_witness :
    decodeBool (encodeBool true) false = (true, none) ∧
    (Request (fun s => Except.ok s) (fun _ : Unit => Except.ok "") (fun _ _ => none)
        (fun _ => TransportOutcome.ok 200 (encodeBool true))
        decodeBool (fun _ => Except.error "boom") "go1.13" ⟨"test-key", false⟩ false
        "GET" "messages" none).error = none ∧
    (Request (fun s => Except.ok s) (fun _ : Unit => Except.ok "") (fun _ _ => none)
        (fun _ => TransportOutcome.ok 200 (encodeBool true))
        decodeBool (fun _ => Except.error "boom") "go1.13" ⟨"test-key", false⟩ false
        "GET" "messages" none).sink = true :=
  ⟨rfl,
    c3_success_roundtrip (fun s => Except.ok s) (fun _ : Unit => Except.ok "")
      (fun _ _ => none) decodeBool (fun _ => Except.error "boom") "go1.13"
      ⟨"test-key", false⟩ false "GET" "messages" none (resolvePath "messages") none
      encodeBool true 200 rfl rfl rfl (Or.inl rfl) rfl⟩

/-- C5: for every 200/201 response whose body fails to decode into the expected
shape, `Request` fails with a `DecodeError` whose message is exactly the
`fmt.Errorf` format containing the raw body text and the underlying parse
failure; in particular the message decomposes around the raw body. -/
theorem c5_decode_error_contains_body {α β : Type}
    (parseURL : String → Except String String) (marshal : β → Except String String)
    (newReqErr : String → String → Option String)
    (decode : String → α → α × Option String)
    (decodeErrResp : String → Except String ErrorResponse)
    (goVersion : String) (c : Client) (v : α) (method path : String) (data : Option β)
    (uriStr : String) (jsonEncoded : Option String) (status : Nat) (body e : String)
    (v2 : α)
    (hparse : parseURL (resolvePath path) = Except.ok uriStr)
    (henc : encodeData marshal data = Except.ok jsonEncoded)
    (hreq : newReqErr method uriStr = none)
    (hstatus : status = 200 ∨ status = 201)
    (hdec : decode body v = (v2, some e)) :
    (Request parseURL marshal newReqErr (fun _ => TransportOutcome.ok status body)
        decode decodeErrResp goVersion c v method path data).error =
      some (ReqError.decodeError ("could not decode response JSON, " ++ body ++ ": " ++ e)) ∧
    (∃ before after : String,
      "could not decode response JSON, " ++ body ++ ": " ++ e = before ++ body ++ after) := by
  refine ⟨?_, "could not decode response JSON, ", ": " ++ e, ?_⟩
  · rw [Request_transport_ok parseURL marshal newReqErr decode decodeErrResp goVersion c v
      method path data uriStr jsonEncoded status body hparse henc hreq]
    simp [classify_success_badBody decode decodeErrResp v v2 status body e hstatus hdec]
  · exact String.append_assoc ("could not decode response JSON, " ++ body) ": " e

/-- Witness for C5 at the body "not json". -/
theorem c5_witness :
    decodeBool "not json" false = (false, some "invalid Boolean literal") ∧
    (Request (fun s => Except.ok s) (fun _ : Unit => Except.ok "") (fun _ _ => none)
        (fun _ => TransportOutcome.ok 200 "not json")
        decodeBool (fun _ => Except.error "boom") "go1.13" ⟨"test-key", false⟩ false
        "GET" "messages" none).error =
      some (ReqError.decodeError
        ("could not decode response JSON, " ++ "not json" ++ ": " ++ "invalid Boolean literal")) :=
  ⟨rfl,
    (c5_decode_error_contains_body (fun s => Except.ok s) (fun _ : Unit => Except.ok "")
      (fun _ _ => none) decodeBool (fun _ => Except.error "boom") "go1.13"
      ⟨"test-key", false⟩ false "GET" "messages" none (resolvePath "messages") none
      200 "not json" "invalid Boolean literal" false rfl rfl rfl (Or.inl rfl) rfl).1⟩

/-- C4: for every response whose status is not 200, 201 or 500 and whose body
decodes as a structured-error envelope, `Request` fails with exactly the
structured error carried by the body, uniformly in the status code. -/
theorem c4_structured_error_uniform {α β : Type}
    (parseURL : String → Except String String) (marshal : β → Except String String)
    (newReqErr : String → String → Option String)
    (decode : String → α → α × Option String)
    (decodeErrResp : String → Except String ErrorResponse)
    (goVersion : String) (c : Client) (v : α) (method path : String) (data : Option β)
    (uriStr : String) (jsonEncoded : Option String) (status : Nat) (body : String)
    (er : ErrorResponse)
    (hparse : parseURL (resolvePath path) = Except.ok uriStr)
    (henc : encodeData marshal data = Except.ok jsonEncoded)
    (hreq : newReqErr method uriStr = none)
    (h200 : status ≠ 200) (h201 : status ≠ 201) (h500 : status ≠ 500)
    (hbody : decodeErrResp body = Except.ok er) :
    (Request parseURL marshal newReqErr (fun _ => TransportOutcome.ok status body)
        decode decodeErrResp goVersion c v method path data).error =
      some (ReqError.structured er) ∧
    (Request parseURL marshal newReqErr (fun _ => TransportOutcome.ok status body)
        decode decodeErrResp goVersion c v method path data).sink = v := by
  rw [Request_transport_ok parseURL marshal newReqErr decode decodeErrResp goVersion c v
    method path data uriStr jsonEncoded status body hparse henc hreq]
  simp [classify_other_ok decode decodeErrResp v status body er h200 h201 h500 hbody]

/-- Witness for C4: status 422 with the spec's example body; the single item
has code 9, description "is invalid", parameter "originator". -/
theorem c4_witness :
    decodeErrorResponseJson
        "\x7b\"errors\":[\x7b\"code\":9,\"description\":\"is invalid\",\"parameter\":\"originator\"\x7d]\x7d" =
      Except.ok ⟨[⟨9, "is invalid", some "originator", none⟩]⟩ ∧
    (Request (fun s => Except.ok s) (fun _ : Unit => Except.ok "") (fun _ _ => none)
        (fun _ => TransportOutcome.ok 422
          "\x7b\"errors\":[\x7b\"code\":9,\"description\":\"is invalid\",\"parameter\":\"originator\"\x7d]\x7d")
        decodeBool decodeErrorResponseJson "go1.13" ⟨"test-key", false⟩ false
        "GET" "messages" none).error =
      some (ReqError.structured ⟨[⟨9, "is invalid", some "originator", none⟩]⟩) :=
  ⟨rfl,
    (c4_structured_error_uniform (fun s => Except.ok s) (fun _ : Unit => Except.ok "")
      (fun _ _ => none) decodeBool decodeErrorResponseJson "go1.13"
      ⟨"test-key", false⟩ false "GET" "messages" none (resolvePath "messages") none
      422
      "\x7b\"errors\":[\x7b\"code\":9,\"description\":\"is invalid\",\"parameter\":\"originator\"\x7d]\x7d"
      ⟨[⟨9, "is invalid", some "originator", none⟩]⟩
      rfl rfl rfl (by decide) (by decide) (by decide) rfl).1⟩

/-- C6: for every response whose status is not 200, 201 or 500 and whose body
fails to parse as a structured-error envelope, `Request` fails with the raw
parse error itself, which is distinct in kind from the `DecodeError` of the
200/201 path. -/
theorem c6_raw_parse_error_unwrapped {α β : Type}
    (parseURL : String → Except String String) (marshal : β → Except String String)
    (newReqErr : String → String → Option String)
    (decode : String → α → α × Option String)
    (decodeErrResp : String → Except String ErrorResponse)
    (goVersion : String) (c : Client) (v : α) (method path : String) (data : Option β)
    (uriStr : String) (jsonEncoded : Option String) (status : Nat) (body e : String)
    (hparse : parseURL (resolvePath path) = Except.ok uriStr)
    (henc : encodeData marshal data = Except.ok jsonEncoded)
    (hreq : newReqErr method uriStr = none)
    (h200 : status ≠ 200) (h201 : status ≠ 201) (h500 : status ≠ 500)
    (hbody : decodeErrResp body = Except.error e) :
    (Request parseURL marshal newReqErr (fun _ => TransportOutcome.ok status body)
        decode decodeErrResp goVersion c v method path data).error =
      some (ReqError.rawParse e) ∧
    (∀ msg : String, ReqError.rawParse e ≠ ReqError.decodeError msg) := by
  refine ⟨?_, fun msg h => ReqError.noConfusion h⟩
  rw [Request_transport_ok parseURL marshal newReqErr decode decodeErrResp goVersion c v
    method path data uriStr jsonEncoded status body hparse henc hreq]
  simp [classify_other_badBody decode decodeErrResp v status body e h200 h201 h500 hbody]

/-- Witness for C6: status 400 with a non-JSON body fails with the parser's own
error. -/
theorem c6_witness :
    decodeErrorResponseJson "not json" = Except.error "invalid character in literal" ∧
    (Request (fun s => Except.ok s) (fun _ : Unit => Except.ok "") (fun _ _ => none)
        (fun _ => TransportOutcome.ok 400 "not json")
        decodeBool decodeErrorResponseJson "go1.13" ⟨"test-key", false⟩ false
        "GET" "messages" none).error =
      some (ReqError.rawParse "invalid character in literal") :=
  ⟨rfl,
    (c6_raw_parse_error_unwrapped (fun s => Except.ok s) (fun _ : Unit => Except.ok "")
      (fun _ _ => none) decodeBool decodeErrorResponseJson "go1.13"
      ⟨"test-key", false⟩ false "GET" "messages" none (resolvePath "messages") none
      400 "not json" "invalid character in literal"
      rfl rfl rfl (by decide) (by decide) (by decide) rfl).1⟩

/-- C2: a path that does not begin with the HTTP/HTTPS scheme strings is sent
as the base endpoint, then "/", then the path; a path that does begin with one
is sent as-is, the base endpoint never prepended. -/
theorem c2_url_resolution {α β : Type}
    (parseURL : String → Except String String) (marshal : β → Except String String)
    (newReqErr : String → String → Option String)
    (transport : OutboundRequest → TransportOutcome)
    (decode : String → α → α × Option String)
    (decodeErrResp : String → Except String ErrorResponse)
    (goVersion : String) (c : Client) (v : α) (method path : String) (data : Option β)
    (jsonEncoded : Option String)
    (hparse : parseURL (resolvePath path) = Except.ok (resolvePath path))
    (henc : encodeData marshal data = Except.ok jsonEncoded)
    (hreq : ∀ s : String, newReqErr method s = none) :
    (hasPre path "https://" = false → hasPre path "http://" = false →
      (Request parseURL marshal newReqErr transport decode decodeErrResp goVersion
          c v method path data).sent =
        some ⟨method, Endpoint ++ "/" ++ path, jsonEncoded,
          requestHeaders c.AccessKey goVersion⟩) ∧
    (hasPre path "https://" = true ∨ hasPre path "http://" = true →
      (Request parseURL marshal newReqErr transport decode decodeErrResp goVersion
          c v method path data).sent =
        some ⟨method, path, jsonEncoded, requestHeaders c.AccessKey goVersion⟩) := by
  have hsent := Request_sent_eq parseURL marshal newReqErr transport decode decodeErrResp
    goVersion c v method path data (resolvePath path) jsonEncoded hparse henc (hreq _)
  constructor
  · intro h1 h2
    rw [hsent]
    simp [resolvePath, h1, h2]
  · intro h
    rw [hsent]
    rcases h with h | h <;> simp [resolvePath, h]

/-- Witness for C2: the relative path "messages" resolves under the base
endpoint. -/
theorem c2_witness :
    hasPre "messages" "https://" = false ∧ hasPre "messages" "http://" = false ∧
    (Request (fun s => Except.ok s) (fun _ : Unit => Except.ok "") (fun _ _ => none)
        (fun _ => TransportOutcome.ok 200 "true") decodeBool decodeErrorResponseJson
        "go1.13" ⟨"test-key", false⟩ false "GET" "messages" none).sent =
      some ⟨"GET", Endpoint ++ "/" ++ "messages", none,
        requestHeaders "test-key" "go1.13"⟩ :=
  ⟨rfl, rfl,
    (c2_url_resolution (fun s => Except.ok s) (fun _ : Unit => Except.ok "")
      (fun _ _ => none) (fun _ => TransportOutcome.ok 200 "true") decodeBool
      decodeErrorResponseJson "go1.13" ⟨"test-key", false⟩ false "GET" "messages" none
      none rfl rfl (fun _ => rfl)).1 rfl rfl⟩

/-- A Go-style unmarshaller witnessing partial writes: decode one object
field into a pair of integer fields "a" and "b"; a wrong-typed value leaves
the field and reports a type error, unknown keys are ignored. -/
def decodePairField (v : Int × Int) (k : String) (j : JsonVal) :
    (Int × Int) × Option String :=
  if k = "a" then
    match j with
    | JsonVal.num n => ((n, v.2), none)
    | _ => (v, some "json: cannot unmarshal value into field a of type int")
  else if k = "b" then
    match j with
    | JsonVal.num n => ((v.1, n), none)
    | _ => (v, some "json: cannot unmarshal value into field b of type int")
  else (v, none)

/-- Decode the fields in order, keeping every successful write and remembering
the earliest error, as encoding/json does on semantically mismatched input. -/
def decodePairFields (v : Int × Int) (err : Option String) :
    List (String × JsonVal) → (Int × Int) × Option String
  | [] => (v, err)
  | (k, j) :: rest =>
    match decodePairField v k j with
    | (v2, e2) =>
      decodePairFields v2 (match err with | some e => some e | none => e2) rest

/-- Unmarshal a JSON object into a pair of integer fields the way Go's
encoding/json treats a two-int-field struct: the whole input is syntax-checked
first (a syntax error leaves the sink untouched), but a semantically
mismatched field is reported only after the well-typed fields before it have
been written, so the sink can hold a partial result alongside the error. -/
def decodePair (s : String) (v : Int × Int) : (Int × Int) × Option String :=
  match parseJsonText s with
  | Except.error e => (v, some e)
  | Except.ok (JsonVal.obj fields) => decodePairFields v none fields
  | Except.ok _ => (v, some "json: cannot unmarshal non-object into pair of ints")

/-- Counterexample to C7 as stated: a 200 response whose body is valid JSON of
the wrong shape makes `Request` return the decode error while the sink has
been partially overwritten — field "a" is already written when field "b"
fails — so the sink is not left untouched on this error path. -/
theorem c7_counterexample :
    (Request (fun s => Except.ok s) (fun _ : Unit => Except.ok "") (fun _ _ => none)
        (fun _ => TransportOutcome.ok 200 "\x7b\"a\":1,\"b\":\"oops\"\x7d")
        decodePair decodeErrorResponseJson "go1.13" ⟨"test-key", false⟩
        ((0 : Int), (0 : Int)) "GET" "messages" none).error =
      some (ReqError.decodeError
        ("could not decode response JSON, " ++ "\x7b\"a\":1,\"b\":\"oops\"\x7d" ++ ": " ++
          "json: cannot unmarshal value into field b of type int")) ∧
    (Request (fun s => Except.ok s) (fun _ : Unit => Except.ok "") (fun _ _ => none)
        (fun _ => TransportOutcome.ok 200 "\x7b\"a\":1,\"b\":\"oops\"\x7d")
        decodePair decodeErrorResponseJson "go1.13" ⟨"test-key", false⟩
        ((0 : Int), (0 : Int)) "GET" "messages" none).sink = ((1 : Int), (0 : Int)) ∧
    ((1 : Int), (0 : Int)) ≠ ((0 : Int), (0 : Int)) := by
  refine ⟨rfl, rfl, by decide⟩

/-- C7 (amended): on every error path whose returned error is not the
`DecodeError` of a failed 200/201 body decode, the caller's sink is left
exactly at its initial value; on the 200/201 decode-failure path the sink
holds whatever the unmarshaller wrote before failing, so a partial result may
accompany that one error. -/
theorem c7_sink_untouched_unless_decode_error {α β : Type}
    (parseURL : String → Except String String) (marshal : β → Except String String)
    (newReqErr : String → String → Option String)
    (transport : OutboundRequest → TransportOutcome)
    (decode : String → α → α × Option String)
    (decodeErrResp : String → Except String ErrorResponse)
    (goVersion : String) (c : Client) (v : α) (method path : String) (data : Option β)
    (er : ReqError)
    (herr : (Request parseURL marshal newReqErr transport decode decodeErrResp goVersion
        c v method path data).error = some er)
    (hnotdec : ∀ msg : String, er ≠ ReqError.decodeError msg) :
    (Request parseURL marshal newReqErr transport decode decodeErrResp goVersion
        c v method path data).sink = v := by
  unfold Request at herr ⊢
  cases hp : parseURL (resolvePath path) with
  | error e => simp [hp]
  | ok uriStr =>
    cases he : encodeData marshal data with
    | error er2 => simp [hp, he]
    | ok jsonEncoded =>
      cases hn : newReqErr method uriStr with
      | some e => simp [hp, he, hn]
      | none =>
        simp only [hp, he, hn] at herr ⊢
        rcases htr : transport ⟨method, uriStr, jsonEncoded,
            requestHeaders c.AccessKey goVersion⟩ with e | e | ⟨status, body⟩ <;>
          (simp only [htr] at herr ⊢; try rfl)
        exact classify_sink_of_error decode decodeErrResp v status body er herr hnotdec

/-- Witness for the amended C7: a 500 response errors with a non-decode error
and leaves the sink at its initial value. -/
theorem c7_witness :
    (Request (fun s => Except.ok s) (fun _ : Unit => Except.ok "") (fun _ _ => none)
        (fun _ => TransportOutcome.ok 500 "oops") decodeBool decodeErrorResponseJson
        "go1.13" ⟨"test-key", false⟩ false "GET" "messages" none).error =
      some ReqError.serviceUnavailable ∧
    (Request (fun s => Except.ok s) (fun _ : Unit => Except.ok "") (fun _ _ => none)
        (fun _ => TransportOutcome.ok 500 "oops") decodeBool decodeErrorResponseJson
        "go1.13" ⟨"test-key", false⟩ false "GET" "messages" none).sink = false :=
  ⟨rfl,
    c7_sink_untouched_unless_decode_error (fun s => Except.ok s)
      (fun _ : Unit => Except.ok "") (fun _ _ => none)
      (fun _ => TransportOutcome.ok 500 "oops") decodeBool
      decodeErrorResponseJson "go1.13" ⟨"test-key", false⟩ false "GET" "messages" none
      ReqError.serviceUnavailable rfl (fun _ h => ReqError.noConfusion h)⟩

/-- C8: the request handed to the transport carries exactly the four standard
headers and no others, and the Authorization value is "AccessKey " followed by
the configured credential. -/
theorem c8_exact_headers {α β : Type}
    (parseURL : String → Except String String) (marshal : β → Except String String)
    (newReqErr : String → String → Option String)
    (transport : OutboundRequest → TransportOutcome)
    (decode : String → α → α × Option String)
    (decodeErrResp : String → Except String ErrorResponse)
    (goVersion : String) (c : Client) (v : α) (method path : String) (data : Option β)
    (uriStr : String) (jsonEncoded : Option String) (req : OutboundRequest)
    (hparse : parseURL (resolvePath path) = Except.ok uriStr)
    (henc : encodeData marshal data = Except.ok jsonEncoded)
    (hreq : newReqErr method uriStr = none)
    (hsent : (Request parseURL marshal newReqErr transport decode decodeErrResp goVersion
        c v method path data).sent = some req) :
    req.headers =
      [("Content-Type", "application/json"), ("Accept", "application/json"),
       ("Authorization", "AccessKey " ++ c.AccessKey),
       ("User-Agent", "MessageBird/ApiClient/" ++ ClientVersion ++ " Go/" ++ goVersion)] ∧
    req.headers.lookup "Authorization" = some ("AccessKey " ++ c.AccessKey) := by
  rw [Request_sent_eq parseURL marshal newReqErr transport decode decodeErrResp goVersion
    c v method path data uriStr jsonEncoded hparse henc hreq] at hsent
  injection hsent with h
  subst h
  exact ⟨rfl, rfl⟩

/-- Witness for C8 at a concrete configuration. -/
theorem c8_witness :
    (Request (fun s => Except.ok s) (fun _ : Unit => Except.ok "") (fun _ _ => none)
        (fun _ => TransportOutcome.ok 200 "true") decodeBool decodeErrorResponseJson
        "go1.13" ⟨"test-key", false⟩ false "GET" "messages" none).sent =
      some ⟨"GET", resolvePath "messages", none, requestHeaders "test-key" "go1.13"⟩ ∧
    (requestHeaders "test-key" "go1.13" =
      [("Content-Type", "application/json"), ("Accept", "application/json"),
       ("Authorization", "AccessKey " ++ "test-key"),
       ("User-Agent", "MessageBird/ApiClient/" ++ ClientVersion ++ " Go/" ++ "go1.13")]) ∧
    (requestHeaders "test-key" "go1.13").lookup "Authorization" =
      some ("AccessKey " ++ "test-key") :=
  ⟨rfl,
    c8_exact_headers (fun s => Except.ok s) (fun _ : Unit => Except.ok "")
      (fun _ _ => none) (fun _ => TransportOutcome.ok 200 "true") decodeBool
      decodeErrorResponseJson "go1.13" ⟨"test-key", false⟩ false "GET" "messages" none
      (resolvePath "messages") none
      ⟨"GET", resolvePath "messages", none, requestHeaders "test-key" "go1.13"⟩
      rfl rfl rfl rfl⟩

/-- C9: two runs that differ only in whether a debug sink is configured (same
access key, any `DebugLog` values) return the same sink, the same error and
hand the same outbound request to the transport. -/
theorem c9_debug_sink_no_effect {α β : Type}
    (parseURL : String → Except String String) (marshal : β → Except String String)
    (newReqErr : String → String → Option String)
    (transport : OutboundRequest → TransportOutcome)
    (decode : String → α → α × Option String)
    (decodeErrResp : String → Except String ErrorResponse)
    (goVersion : String) (c1 c2 : Client) (v : α) (method path : String) (data : Option β)
    (hkey : c1.AccessKey = c2.AccessKey) :
    (Request parseURL marshal newReqErr transport decode decodeErrResp goVersion
        c1 v method path data).sink =
      (Request parseURL marshal newReqErr transport decode decodeErrResp goVersion
        c2 v method path data).sink ∧
    (Request parseURL marshal newReqErr transport decode decodeErrResp goVersion
        c1 v method path data).error =
      (Request parseURL marshal newReqErr transport decode decodeErrResp goVersion
        c2 v method path data).error ∧
    (Request parseURL marshal newReqErr transport decode decodeErrResp goVersion
        c1 v method path data).sent =
      (Request parseURL marshal newReqErr transport decode decodeErrResp goVersion
        c2 v method path data).sent := by
  unfold Request
  rw [hkey]
  cases hp : parseURL (resolvePath path) with
  | error e => exact ⟨rfl, rfl, rfl⟩
  | ok uriStr =>
    dsimp only []
    cases he : encodeData marshal data with
    | error er => exact ⟨rfl, rfl, rfl⟩
    | ok jsonEncoded =>
      dsimp only []
      cases hn : newReqErr method uriStr with
      | some e => exact ⟨rfl, rfl, rfl⟩
      | none =>
        dsimp only []
        rcases htr : transport ⟨method, uriStr, jsonEncoded,
            requestHeaders c2.AccessKey goVersion⟩ with e | e | ⟨status, body⟩ <;>
          simp only [htr]
        · exact ⟨trivial, trivial, trivial⟩
        · exact ⟨trivial, trivial, trivial⟩
        · exact ⟨trivial, trivial, trivial⟩

/-- Witness for C9: identical outcome with and without the debug sink on a
concrete 200 run. -/
theorem c9_witness :
    (Request (fun s => Except.ok s) (fun _ : Unit => Except.ok "") (fun _ _ => none)
        (fun _ => TransportOutcome.ok 200 "true") decodeBool decodeErrorResponseJson
        "go1.13" ⟨"test-key", true⟩ false "GET" "messages" none).sink =
      (Request (fun s => Except.ok s) (fun _ : Unit => Except.ok "") (fun _ _ => none)
        (fun _ => TransportOutcome.ok 200 "true") decodeBool decodeErrorResponseJson
        "go1.13" ⟨"test-key", false⟩ false "GET" "messages" none).sink ∧
    (Request (fun s => Except.ok s) (fun _ : Unit => Except.ok "") (fun _ _ => none)
        (fun _ => TransportOutcome.ok 200 "true") decodeBool decodeErrorResponseJson
        "go1.13" ⟨"test-key", true⟩ false "GET" "messages" none).error =
      (Request (fun s => Except.ok s) (fun _ : Unit => Except.ok "") (fun _ _ => none)
        (fun _ => TransportOutcome.ok 200 "true") decodeBool decodeErrorResponseJson
        "go1.13" ⟨"test-key", false⟩ false "GET" "messages" none).error ∧
    (Request (fun s => Except.ok s) (fun _ : Unit => Except.ok "") (fun _ _ => none)
        (fun _ => TransportOutcome.ok 200 "true") decodeBool decodeErrorResponseJson
        "go1.13" ⟨"test-key", true⟩ false "GET" "messages" none).sent =
      (Request (fun s => Except.ok s) (fun _ : Unit => Except.ok "") (fun _ _ => none)
        (fun _ => TransportOutcome.ok 200 "true") decodeBool decodeErrorResponseJson
        "go1.13" ⟨"test-key", false⟩ false "GET" "messages" none).sent :=
  c9_debug_sink_no_effect (fun s => Except.ok s) (fun _ : Unit => Except.ok "")
    (fun _ _ => none) (fun _ => TransportOutcome.ok 200 "true") decodeBool
    decodeErrorResponseJson "go1.13" ⟨"test-key", true⟩ ⟨"test-key", false⟩ false
    "GET" "messages" none rfl

/-- The Go prefix check does not accept an uppercase scheme: "HTTP://..." is
not a lowercase "http://" prefix. -/
theorem hasPre_upper_http (rest : String) : hasPre ("HTTP://" ++ rest) "http://" = false := rfl

/-- The Go prefix check does not accept an uppercase scheme against "https://"
either. -/
theorem hasPre_upper_https (rest : String) :
    hasPre ("HTTP://" ++ rest) "https://" = false := rfl

/-- C10: the absolute-URL detection is an exact, case-sensitive check for the
lowercase scheme strings; a path with the uppercase variant "HTTP://" is still
treated as relative, so the base endpoint and "/" are prepended before the
string is parsed as a URL. -/
theorem c10_scheme_check_case_sensitive {α β : Type}
    (parseURL : String → Except String String) (marshal : β → Except String String)
    (newReqErr : String → String → Option String)
    (transport : OutboundRequest → TransportOutcome)
    (decode : String → α → α × Option String)
    (decodeErrResp : String → Except String ErrorResponse)
    (goVersion : String) (c : Client) (v : α) (method : String) (data : Option β)
    (rest : String) (jsonEncoded : Option String)
    (hparse : parseURL (resolvePath ("HTTP://" ++ rest)) =
      Except.ok (resolvePath ("HTTP://" ++ rest)))
    (henc : encodeData marshal data = Except.ok jsonEncoded)
    (hreq : ∀ s : String, newReqErr method s = none) :
    hasPre ("HTTP://" ++ rest) "http://" = false ∧
    resolvePath ("HTTP://" ++ rest) = Endpoint ++ "/" ++ ("HTTP://" ++ rest) ∧
    (Request parseURL marshal newReqErr transport decode decodeErrResp goVersion
        c v method ("HTTP://" ++ rest) data).sent =
      some ⟨method, Endpoint ++ "/" ++ ("HTTP://" ++ rest), jsonEncoded,
        requestHeaders c.AccessKey goVersion⟩ := by
  have h1 : resolvePath ("HTTP://" ++ rest) = Endpoint ++ "/" ++ ("HTTP://" ++ rest) := by
    simp [resolvePath, hasPre_upper_http rest, hasPre_upper_https rest]
  refine ⟨hasPre_upper_http rest, h1, ?_⟩
  have hsent := Request_sent_eq parseURL marshal newReqErr transport decode decodeErrResp
    goVersion c v method ("HTTP://" ++ rest) data (resolvePath ("HTTP://" ++ rest))
    jsonEncoded hparse henc (hreq _)
  rw [hsent, h1]

/-- Witness for C10 at the path "HTTP://host/x". -/
theorem c10_witness :
    resolvePath ("HTTP://" ++ "host/x") = Endpoint ++ "/" ++ ("HTTP://" ++ "host/x") ∧
    (Request (fun s => Except.ok s) (fun _ : Unit => Except.ok "") (fun _ _ => none)
        (fun _ => TransportOutcome.ok 200 "true") decodeBool decodeErrorResponseJson
        "go1.13" ⟨"test-key", false⟩ false "GET" ("HTTP://" ++ "host/x") none).sent =
      some ⟨"GET", Endpoint ++ "/" ++ ("HTTP://" ++ "host/x"), none,
        requestHeaders "test-key" "go1.13"⟩ :=
  ⟨(c10_scheme_check_case_sensitive (fun s => Except.ok s) (fun _ : Unit => Except.ok "")
      (fun _ _ => none) (fun _ => TransportOutcome.ok 200 "true") decodeBool
      decodeErrorResponseJson "go1.13" ⟨"test-key", false⟩ false "GET" none "host/x" none
      rfl rfl (fun _ => rfl)).2.1,
    (c10_scheme_check_case_sensitive (fun s => Except.ok s) (fun _ : Unit => Except.ok "")
      (fun _ _ => none) (fun _ => TransportOutcome.ok 200 "true") decodeBool
      decodeErrorResponseJson "go1.13" ⟨"test-key", false⟩ false "GET" none "host/x" none
      rfl rfl (fun _ => rfl)).2.2⟩

end Messagebird
